import Mathlib

/-!
Shallow embedding of the PDF ingestion / RAG backend (FastAPI app under
`backend/app/`).  The relational metadata store is modelled as a list of
records, the blob store, vector index, embedding model and generation
endpoint as explicit oracle parameters, and each HTTP handler of the two
routers (`routers/pdf_db.py`, mounted by `main.py`, and the legacy
`routers/pdf.py`) as a pure function from the request plus oracle
outcomes to a response and the updated stores.
-/

namespace PdfApp

/-! ### models.py -/

/-- Embedding of `PDFStatus` in `app/models.py` (lines 6-9): the enum has
exactly the three members `PRE_SIGNED`, `UPLOADED`, `PARSED`. -/
inductive PDFStatus where
  | PRE_SIGNED
  | UPLOADED
  | PARSED
deriving DecidableEq

/-- `status.value` for the embedded enum. -/
def PDFStatus.value : PDFStatus → String
  | .PRE_SIGNED => "PRE_SIGNED"
  | .UPLOADED => "UPLOADED"
  | .PARSED => "PARSED"

/-- Python attribute lookup `PDFStatus.<name>` on the enum of `models.py`:
returns `none` (an `AttributeError` whose message is the attribute name)
when `name` is not one of the three declared members.  `routers/pdf_db.py`
looks up the members `PENDING` (lines 33, 50-54, 86) and `INDEXED`
(line 129), neither of which exists. -/
def PDFStatus.lookupMember (name : String) : Option PDFStatus :=
  if name = "PRE_SIGNED" then some .PRE_SIGNED
  else if name = "UPLOADED" then some .UPLOADED
  else if name = "PARSED" then some .PARSED
  else none

/-- Embedding of the `PDF` ORM model in `app/models.py` (the
`upload_date` server-side timestamp column is owned by the external
database and carries no claim content, so it is omitted). -/
structure PDFRec where
  id : Nat
  filename : String
  s3_key : String
  file_size : Option Nat
  status : PDFStatus
  vector_index_id : Option String
  content_summary : Option String
deriving DecidableEq

/-- The metadata store: the `pdfs` table as a list of rows.  `id` is the
primary key, so rows are assumed unique by `id`; queries below use
first-match semantics exactly as SQLAlchemy `.first()` does. -/
abbrev DB := List PDFRec

/-- `db.query(PDF).filter(PDF.id == pid).first()`. -/
def findById (db : DB) (pid : Nat) : Option PDFRec :=
  db.find? (fun r => r.id == pid)

/-- `db.query(PDF).filter(PDF.filename == fname).first()`. -/
def findByFilename (db : DB) (fname : String) : Option PDFRec :=
  db.find? (fun r => r.filename == fname)

/-- Mutating the ORM object returned by a `.first()` query by primary key
and committing: the row with that id is replaced. -/
def updateById (db : DB) (pid : Nat) (f : PDFRec → PDFRec) : DB :=
  db.map (fun r => if r.id == pid then f r else r)

/-! ### services/s3_service.py -/

/-- `filename.split('.')[-1] if '.' in filename else 'pdf'` in
`S3Service.generate_presigned_url`. -/
def fileExtension (filename : String) : String :=
  if filename.toList.contains '.' then
    (filename.split (fun c => c = '.')).getLastD ""
  else "pdf"

/-- Embedding of `S3Service.generate_presigned_url` (s3_service.py lines
17-38): a fresh uuid (drawn outside and passed in) names a new unique key
`pdfs/<uuid>.<ext>`, and the pre-signed PUT URL is for that new key.  The
URL itself is opaque; we model it as a tag recording which key it signs. -/
def generate_presigned_url (uuid : String) (filename : String) : String × String :=
  let unique_key := "pdfs/" ++ uuid ++ "." ++ fileExtension filename
  ("PUT " ++ unique_key, unique_key)

/-- `if file_size: pdf.file_size = file_size` after
`s3_service.get_file_size`: a `None` result or a falsy `0` leaves the
stored size unchanged. -/
def applySize (cur : Option Nat) (fetched : Option Nat) : Option Nat :=
  match fetched with
  | some n => if n = 0 then cur else some n
  | none => cur

/-! ### HTTP-level outcomes -/

/-- The `HTTPException`s raised by the routers. -/
inductive ApiError where
  | notFound (detail : String)
  | badRequest (detail : String)
  | internalError (detail : String)
deriving DecidableEq

/-- `PDFUploadResponse` of schemas.py. -/
structure UploadOk where
  upload_url : String
  pdf_id : Nat
  s3_key : String
deriving DecidableEq

/-! ### services/opensearch_service.py — segmenter -/

/-- The whitespace characters stripped by Python `str.strip()` on ASCII
text: space, tab, newline, carriage return, vertical tab, form feed. -/
def pyWs (c : Char) : Bool :=
  c == ' ' || c == '\t' || c == '\n' || c == '\r' ||
  c == Char.ofNat 11 || c == Char.ofNat 12

/-- Python `line.strip()`: drop `pyWs` characters from both ends. -/
def pyStrip (s : String) : String :=
  String.mk (((s.toList.dropWhile pyWs).reverse.dropWhile pyWs).reverse)

/-- Python `content.split('.')` on the character list: one piece per run
between dots, with empty pieces kept (so `n` dots give `n + 1` pieces,
and the empty text gives one empty piece), exactly the semantics of
`str.split` with an explicit separator. -/
def splitDot : List Char → List (List Char)
  | [] => [[]]
  | c :: t =>
    match splitDot t with
    | [] => [[]]
    | h :: r => if c = '.' then [] :: h :: r else (c :: h) :: r

/-- The inner loop of `parse_pdf_content` (opensearch_service.py lines
107-111) applied to one extracted `doc.page_content`: split on `'.'`,
keep each piece whose stripped form is non-empty, appending the stripped
form. -/
def segmentsOfContent (content : String) : List String :=
  ((splitDot content.toList).map String.mk).filterMap (fun line =>
    let t := pyStrip line
    if t = "" then none else some t)

/-- Outcome of handing the raw bytes to the external `PyMuPDFParser` in
`"single"` mode with an empty page delimiter: either the library raises
(the byte stream is not a parseable PDF), or it yields the extracted
`page_content` of each produced document (in `"single"` mode one string,
the concatenation of all pages without a delimiter; a valid PDF with no
extractable text yields the empty string). -/
inductive PdfExtract where
  | invalid (msg : String)
  | docs (contents : List String)
deriving DecidableEq

/-- Embedding of `OpenSearchService.parse_pdf_content` (opensearch_service.py
lines 85-116): on a parser exception the wrapped error is re-raised;
otherwise the segments of every extracted document are collected in
order.  Note there is no emptiness check: zero extractable text yields
`.ok []`, not an error. -/
def parse_pdf_content : PdfExtract → Except String (List String)
  | .invalid msg => .error ("Error parsing PDF content: " ++ msg)
  | .docs cs => .ok (cs.flatMap segmentsOfContent)

/-! ### services/opensearch_service.py — vector index -/

/-- One document indexed into OpenSearch by `analyze_and_index_pdf`
(opensearch_service.py lines 139-151).  Embedding vectors are opaque
values produced by the external sentence-transformer model; we carry
them as `List Int` tokens supplied by an `embedder` oracle. -/
structure IndexEntry where
  segment_id : String
  pdf_id : Nat
  filename : String
  text : String
  vector : List Int
  title : String
  author : String
deriving DecidableEq

/-- `client.index(index=…, id=segment_id, body=doc)`: write-or-overwrite
by `segment_id`. -/
def upsert (ix : List IndexEntry) (e : IndexEntry) : List IndexEntry :=
  if ix.any (fun o => o.segment_id == e.segment_id) then
    ix.map (fun o => if o.segment_id == e.segment_id then e else o)
  else ix ++ [e]

/-- Embedding of `OpenSearchService.generate_embeddings` (lines 118-124):
`model.encode` maps each text to its vector, in input order. -/
def generate_embeddings (embedder : String → List Int) (texts : List String) :
    List (List Int) :=
  texts.map embedder

/-- The documents built by the loop at opensearch_service.py lines
139-151: `enumerate(zip(texts, vectors))` with
`segment_id = str(pdf_id) ++ "_" ++ str(i)`. -/
def buildEntries (pdf_id : Nat) (filename : String) (texts : List String)
    (embedder : String → List Int) : List IndexEntry :=
  let vectors := generate_embeddings embedder texts
  (texts.zip vectors).enum.map (fun p =>
    { segment_id := toString pdf_id ++ "_" ++ toString p.1
      pdf_id := pdf_id
      filename := filename
      text := p.2.1
      vector := p.2.2
      title := filename ++ "_segment_" ++ toString p.1
      author := "pdf_" ++ toString pdf_id })

/-- The sequential `client.index` loop: `failAt = some k` means the k-th
write (0-based) raises, leaving the earlier writes in place —
OpenSearch offers no transaction around the loop. -/
def upsertLoop (failAt : Option Nat) : Nat → List IndexEntry →
    List IndexEntry → Option String × List IndexEntry
  | _, [], ix => (none, ix)
  | i, e :: rest, ix =>
    if failAt = some i then (some "index write failed", ix)
    else upsertLoop failAt (i + 1) rest (upsert ix e)

/-- Embedding of `OpenSearchService.analyze_and_index_pdf`
(opensearch_service.py lines 126-158).  Oracle parameters: `fetch` is the
S3 download outcome combined with the external PDF parse (an S3 error
message or the extracted contents), `embedder` the sentence-transformer,
`failAt` the behaviour of the OpenSearch client during the write loop.
Returns the `vector_index_id` on success, the wrapped exception message
otherwise, together with the updated vector index. -/
def analyze_and_index_pdf (pdf_id : Nat) (filename : String)
    (fetch : Except String PdfExtract) (embedder : String → List Int)
    (failAt : Option Nat) (ix : List IndexEntry) :
    Except String String × List IndexEntry :=
  match fetch with
  | .error e =>
    (.error ("Error analyzing and indexing PDF: Error downloading PDF from S3: " ++ e), ix)
  | .ok extract =>
    match parse_pdf_content extract with
    | .error e => (.error ("Error analyzing and indexing PDF: " ++ e), ix)
    | .ok texts =>
      let entries := buildEntries pdf_id filename texts embedder
      match upsertLoop failAt 0 entries ix with
      | (some m, ix2) => (.error ("Error analyzing and indexing PDF: " ++ m), ix2)
      | (none, ix2) => (.ok ("pdf_" ++ toString pdf_id), ix2)

/-! ### routers/pdf_db.py — the router mounted by main.py -/

/-- Embedding of `upload_pdf` in `routers/pdf_db.py` (lines 24-71).  The
whole body runs inside `try … except Exception`, which rolls the session
back and re-raises as a 500 whose detail appends `str(e)`.  Both the
existing-record branch (line 33) and the creation branch (line 53)
evaluate `PDFStatus.PENDING`; since `models.py` declares no member
`PENDING`, that lookup raises `AttributeError("PENDING")`.  The
unreachable continuations are still transcribed from the source text.
`uuid` is the fresh uuid the S3 service would draw; `newId` the
auto-increment id the database would assign. -/
def upload_pdf_db (db : DB) (fname : String) (uuid : String) (newId : Nat) :
    Except ApiError UploadOk × DB :=
  match findByFilename db fname with
  | some existing =>
    match PDFStatus.lookupMember "PENDING" with
    | none => (.error (.internalError ("Error creating upload URL: " ++ "PENDING")), db)
    | some pending =>
      if existing.status = pending then
        let pr := generate_presigned_url uuid fname
        (.ok ⟨pr.1, existing.id, existing.s3_key⟩, db)
      else
        (.error (.badRequest ("PDF with filename " ++ fname ++
          " already exists with status " ++ existing.status.value)), db)
  | none =>
    let pr := generate_presigned_url uuid fname
    match PDFStatus.lookupMember "PENDING" with
    | none => (.error (.internalError ("Error creating upload URL: " ++ "PENDING")), db)
    | some pending =>
      (.ok ⟨pr.1, newId, pr.2⟩,
       db ++ [⟨newId, fname, pr.2, none, pending, none, none⟩])

/-- Embedding of `confirm_pdf_upload` in `routers/pdf_db.py` (lines
73-114).  After the 404 check, line 86 evaluates
`pdf.status != PDFStatus.PENDING`, which raises
`AttributeError("PENDING")`; the generic handler rolls back and raises a
500.  The guarded 400 branch and the actual status update that the
source text contains below that line are transcribed but unreachable.
`s3size` is the outcome of `s3_service.get_file_size`. -/
def confirm_pdf_upload (db : DB) (pid : Nat) (s3size : Option Nat) :
    Except ApiError (String × Nat) × DB :=
  match findById db pid with
  | none => (.error (.notFound "PDF not found"), db)
  | some pdf =>
    match PDFStatus.lookupMember "PENDING" with
    | none => (.error (.internalError ("Error confirming PDF upload: " ++ "PENDING")), db)
    | some pending =>
      if pdf.status ≠ pending then
        (.error (.badRequest ("PDF status is " ++ pdf.status.value ++ ", expected PENDING")), db)
      else
        (.ok ("PDF upload confirmed successfully", pdf.id),
         updateById db pid (fun r =>
           { r with status := .UPLOADED, file_size := applySize r.file_size s3size }))

/-- `PDFParseResponse` of schemas.py. -/
structure ParseOk where
  message : String
  pdf_id : Nat
  vector_index_id : String
deriving DecidableEq

/-- The fixed summary written on successful indexing (pdf_db.py line 151
and pdf.py line 193). -/
def summaryString : String :=
  "PDF content has been extracted, embedded, and indexed in vector database"

/-- Embedding of `parse_pdf` in `routers/pdf_db.py` (lines 116-168).
After the 404 check, line 129 evaluates `PDFStatus.INDEXED`, which
raises `AttributeError("INDEXED")`; the generic handler rolls back and
raises a 500.  The guarded 400 branches and the indexing continuation in
the source text below that line are transcribed but unreachable. -/
def parse_pdf_db (db : DB) (pid : Nat) (fetch : Except String PdfExtract)
    (embedder : String → List Int) (failAt : Option Nat)
    (ix : List IndexEntry) : Except ApiError ParseOk × DB × List IndexEntry :=
  match findById db pid with
  | none => (.error (.notFound "PDF not found"), db, ix)
  | some pdf =>
    match PDFStatus.lookupMember "INDEXED" with
    | none => (.error (.internalError ("Error parsing PDF: " ++ "INDEXED")), db, ix)
    | some indexed =>
      if pdf.status = indexed then
        (.error (.badRequest "PDF is already indexed"), db, ix)
      else
        match PDFStatus.lookupMember "PENDING" with
        | none => (.error (.internalError ("Error parsing PDF: " ++ "PENDING")), db, ix)
        | some pending =>
          if pdf.status = pending then
            (.error (.badRequest "PDF has not been uploaded yet. Please upload and confirm first."), db, ix)
          else
            match analyze_and_index_pdf pid pdf.filename fetch embedder failAt ix with
            | (.error e, ix2) =>
              (.error (.internalError ("Error parsing PDF: " ++ e)), db, ix2)
            | (.ok vid, ix2) =>
              (.ok ⟨"PDF parsed and indexed successfully", pdf.id, vid⟩,
               updateById db pid (fun r =>
                 { r with status := indexed, vector_index_id := some vid,
                          content_summary := some summaryString }),
               ix2)

/-! ### routers/pdf.py — legacy router (not mounted by main.py) -/

/-- Embedding of `upload_pdf` in `routers/pdf.py` (lines 21-50): no
filename-collision check; a record is created with status
`PRE_SIGNED`. -/
def upload_pdf_v1 (db : DB) (fname : String) (uuid : String) (newId : Nat) :
    Except ApiError UploadOk × DB :=
  let pr := generate_presigned_url uuid fname
  (.ok ⟨pr.1, newId, pr.2⟩,
   db ++ [⟨newId, fname, pr.2, none, .PRE_SIGNED, none, none⟩])

/-- Embedding of `mark_uploaded` in `routers/pdf.py` (lines 52-83): after
the 404 check the status is set to `UPLOADED` unconditionally — there is
no check of the current status. -/
def mark_uploaded (db : DB) (pid : Nat) (s3size : Option Nat) :
    Except ApiError String × DB :=
  match findById db pid with
  | none => (.error (.notFound "PDF not found"), db)
  | some _pdf =>
    (.ok "PDF marked as uploaded",
     updateById db pid (fun r =>
       { r with status := .UPLOADED, file_size := applySize r.file_size s3size }))

/-- Embedding of `analyze_pdf` in `routers/pdf.py` (lines 159-210): the
working counterpart of `parse_pdf` — its guards compare against the
members `PARSED` and `PRE_SIGNED` that do exist. -/
def analyze_pdf (db : DB) (pid : Nat) (fetch : Except String PdfExtract)
    (embedder : String → List Int) (failAt : Option Nat)
    (ix : List IndexEntry) : Except ApiError ParseOk × DB × List IndexEntry :=
  match findById db pid with
  | none => (.error (.notFound "PDF not found"), db, ix)
  | some pdf =>
    if pdf.status = .PARSED then
      (.error (.badRequest "PDF is already analyzed and parsed"), db, ix)
    else if pdf.status = .PRE_SIGNED then
      (.error (.badRequest "PDF has not been uploaded yet. Please upload the file first."), db, ix)
    else
      match analyze_and_index_pdf pid pdf.filename fetch embedder failAt ix with
      | (.error e, ix2) =>
        (.error (.internalError ("Error analyzing PDF: " ++ e)), db, ix2)
      | (.ok vid, ix2) =>
        (.ok ⟨"PDF analyzed and indexed successfully", pdf.id, vid⟩,
         updateById db pid (fun r =>
           { r with status := .PARSED, vector_index_id := some vid,
                    content_summary := some summaryString }),
         ix2)

/-! ### services/chat_service.py and the /chat endpoint -/

/-- One hit returned by the OpenSearch k-NN query in
`search_similar_content`.  The relevance score is an opaque value. -/
structure SearchHit where
  text : String
  filename : String
  pdf_id : Nat
  score : Int
deriving DecidableEq

/-- Outcome of the body of the `try` block in `search_similar_content`
(opensearch_service.py lines 218-248): embedding the query and running
the k-NN search either yields the ranked hits (possibly none, e.g. when
the index holds no data) or raises somewhere along the way. -/
inductive SearchOutcome where
  | ok (hits : List SearchHit)
  | fail (msg : String)
deriving DecidableEq

/-- One element of the list built at opensearch_service.py lines 240-246. -/
structure ContentResult where
  content : String
  filename : String
  pdf_id : Nat
  score : Int
deriving DecidableEq

/-- Embedding of `OpenSearchService.search_similar_content`
(opensearch_service.py lines 218-252): every exception from the embed or
search steps is caught, logged and converted to the empty list; a normal
response is mapped hit-by-hit, in order. -/
def search_similar_content : SearchOutcome → List ContentResult
  | .fail _ => []
  | .ok hits => hits.map (fun h => ⟨h.text, h.filename, h.pdf_id, h.score⟩)

/-- Embedding of `ChatService._search_knowledge_base` (chat_service.py
lines 101-125): empty results give `(None, [])`; otherwise the contents
are joined with a blank line as context and the filenames collected as
sources. -/
def search_knowledge_base (o : SearchOutcome) : Option String × List String :=
  let results := search_similar_content o
  if results = [] then (none, [])
  else
    (some (String.intercalate "\n\n" (results.map (fun r => r.content))),
     results.map (fun r => r.filename))

/-- The Llama-3.3 role marker used by `_generate_response` (chat_service.py
lines 83-84). -/
def assistantMarker : String :=
  "<|start_header_id|>assistant<|end_header_id|>"

/-- Embedding of `ChatService._format_prompt` (chat_service.py lines
29-54). -/
def format_prompt (query : String) (context : Option String) : String :=
  match context with
  | some ctx =>
    "<|begin_of_text|><|start_header_id|>system<|end_header_id|>\n\n" ++
    "You are a helpful AI assistant. Use the following context to answer the user's question. If the context doesn't contain relevant information, say so.\n\n" ++
    "Context:\n" ++ ctx ++ "\n\n<|eot_id|><|start_header_id|>user<|end_header_id|>\n\n" ++
    query ++ "<|eot_id|>" ++ assistantMarker ++ "\n\n"
  | none =>
    "<|begin_of_text|><|start_header_id|>system<|end_header_id|>\n\n" ++
    "You are a helpful AI assistant. Answer the user's question to the best of your ability.\n\n" ++
    "<|eot_id|><|start_header_id|>user<|end_header_id|>\n\n" ++
    query ++ "<|eot_id|>" ++ assistantMarker ++ "\n\n"

/-- Outcome of `requests.post` to the Ollama generation endpoint inside
`_generate_response`: either the request completed with some HTTP status
code (`body` being the `response` field of the parsed JSON, `none` when
the field is absent), or it raised a timeout, a connection error, or any
other exception (e.g. unparseable JSON). -/
inductive GenOutcome where
  | completed (status_code : Nat) (body : Option String)
  | timeout
  | connError
  | exc (msg : String)
deriving DecidableEq

/-- The four apologetic fallback strings of `_generate_response`. -/
def apologyHttp : String :=
  "I apologize, but there was an error communicating with the language model. Please try again."

def apologyTimeout : String :=
  "I apologize, but the request timed out. Please try again."

def apologyConn : String :=
  "I apologize, but I cannot connect to the language model service. Please check if the Ollama service is running."

def apologyGeneric : String :=
  "I apologize, but there was an error generating the response. Please try again."

/-- Embedding of `ChatService._generate_response` (chat_service.py lines
56-99).  On a 200 the generated text is returned, with everything up to
the last assistant role marker stripped when the marker occurs; every
failure mode is caught and converted to an apologetic string. -/
def generate_response (_prompt : String) (o : GenOutcome) : String :=
  match o with
  | .completed code body =>
    if code = 200 then
      let generated := body.getD ""
      let parts := generated.splitOn assistantMarker
      if parts.length = 1 then generated else pyStrip (parts.getLastD "")
    else apologyHttp
  | .timeout => apologyTimeout
  | .connError => apologyConn
  | .exc _ => apologyGeneric

/-- Embedding of `ChatService.chat` (chat_service.py lines 127-142): the
knowledge base is consulted only when `use_knowledge` is true; the
prompt is built from the query and the (possibly absent) context and
handed to the generation endpoint. -/
def chat (query : String) (use_knowledge : Bool) (so : SearchOutcome)
    (go : GenOutcome) : String × List String :=
  let cs := if use_knowledge then search_knowledge_base so else (none, [])
  let prompt := format_prompt query cs.1
  (generate_response prompt go, cs.2)

/-- `ChatResponse` of schemas.py. -/
structure ChatResponseModel where
  response : String
  sources : Option (List String)
  use_knowledge : Bool
deriving DecidableEq

/-- Embedding of the `/chat` endpoint `chat_with_pdfs` in
`routers/pdf_db.py` (lines 225-245): the sources are surfaced only when
`use_knowledge` is true, else the field is `None`. -/
def chat_with_pdfs (query : String) (use_knowledge : Bool)
    (so : SearchOutcome) (go : GenOutcome) : ChatResponseModel :=
  let rs := chat query use_knowledge so go
  ⟨rs.1, if use_knowledge then some rs.2 else none, use_knowledge⟩

/-! ### Derived notions and sample data used by the verification -/

/-- The position of a status along the intended lifecycle
`PRE_SIGNED → UPLOADED → PARSED` (the spec renames these stages
`PENDING → UPLOADED → INDEXED`). -/
def statusRank : PDFStatus → Nat
  | .PRE_SIGNED => 0
  | .UPLOADED => 1
  | .PARSED => 2

/-- The status column of the row with primary key `pid`. -/
def statusOf (db : DB) (pid : Nat) : Option PDFStatus :=
  (findById db pid).map (fun r => r.status)

/-- A row whose upload has been confirmed. -/
def sampleUploaded : PDFRec :=
  ⟨1, "a.pdf", "pdfs/u0.pdf", some 1024, .UPLOADED, none, none⟩

/-- A row that has been analyzed and indexed. -/
def sampleParsed : PDFRec :=
  ⟨1, "a.pdf", "pdfs/u0.pdf", some 1024, .PARSED, some "pdf_1", some summaryString⟩

/-! ### Helper lemmas -/

lemma head?_dropWhile_pyWs (l : List Char) (c : Char)
    (h : (l.dropWhile pyWs).head? = some c) : pyWs c = false := by
  induction l with
  | nil => simp at h
  | cons a t ih =>
    rw [List.dropWhile_cons] at h
    by_cases ha : pyWs a
    · exact ih (by simpa [ha] using h)
    · simp [ha] at h
      subst h
      simpa using ha

lemma dropWhile_eq_self_of_head (l : List Char)
    (h : ∀ c, l.head? = some c → pyWs c = false) : l.dropWhile pyWs = l := by
  cases l with
  | nil => rfl
  | cons a t => rw [List.dropWhile_cons, if_neg (by simp [h a rfl])]

lemma getLast?_dropWhile_pyWs (l : List Char)
    (hne : l.dropWhile pyWs ≠ []) :
    (l.dropWhile pyWs).getLast? = l.getLast? := by
  obtain ⟨t, ht⟩ := List.dropWhile_suffix (l := l) pyWs
  conv_rhs => rw [← ht]
  rw [List.getLast?_append]
  cases hg : (l.dropWhile pyWs).getLast? with
  | none => exact absurd (List.getLast?_eq_none_iff.mp hg) hne
  | some c => rfl

lemma pyStrip_idem (s : String) : pyStrip (pyStrip s) = pyStrip s := by
  unfold pyStrip
  have hmk : ∀ l : List Char, (String.mk l).toList = l := fun _ => rfl
  rw [hmk]
  set a := s.toList.dropWhile pyWs with ha
  set b := a.reverse.dropWhile pyWs with hb
  by_cases hbe : b = []
  · simp [hbe]
  · have hr : b.reverse.dropWhile pyWs = b.reverse := by
      apply dropWhile_eq_self_of_head
      intro c hc
      rw [List.head?_reverse] at hc
      rw [hb, getLast?_dropWhile_pyWs _ (by rw [← hb]; exact hbe),
          List.getLast?_reverse] at hc
      exact head?_dropWhile_pyWs _ _ (ha ▸ hc)
    rw [hr, List.reverse_reverse]
    have hb2 : b.dropWhile pyWs = b := by
      apply dropWhile_eq_self_of_head
      intro c hc
      exact head?_dropWhile_pyWs a.reverse c (hb ▸ hc)
    rw [hb2]

lemma mem_segmentsOfContent (content : String) (s : String)
    (h : s ∈ segmentsOfContent content) : s ≠ "" ∧ pyStrip s = s := by
  unfold segmentsOfContent at h
  rw [List.mem_filterMap] at h
  obtain ⟨line, _, hline⟩ := h
  by_cases hz : pyStrip line = ""
  · simp [hz] at hline
  · simp only [hz, if_neg] at hline
    simp at hline
    refine ⟨by rw [← hline]; exact hz, by rw [← hline]; exact pyStrip_idem line⟩

lemma lookup_PENDING : PDFStatus.lookupMember "PENDING" = none := by decide

lemma lookup_INDEXED : PDFStatus.lookupMember "INDEXED" = none := by decide

lemma upload_pdf_db_fresh (db : DB) (fname uuid : String) (newId : Nat)
    (h : findByFilename db fname = none) :
    upload_pdf_db db fname uuid newId =
      (.error (.internalError "Error creating upload URL: PENDING"), db) := by
  unfold upload_pdf_db
  rw [h, lookup_PENDING]
  rfl

lemma upload_pdf_db_existing (db : DB) (fname uuid : String) (newId : Nat)
    (p : PDFRec) (h : findByFilename db fname = some p) :
    upload_pdf_db db fname uuid newId =
      (.error (.internalError "Error creating upload URL: PENDING"), db) := by
  unfold upload_pdf_db
  rw [h, lookup_PENDING]
  rfl

lemma confirm_found_500 (db : DB) (pid : Nat) (s3size : Option Nat)
    (p : PDFRec) (h : findById db pid = some p) :
    confirm_pdf_upload db pid s3size =
      (.error (.internalError "Error confirming PDF upload: PENDING"), db) := by
  unfold confirm_pdf_upload
  rw [h, lookup_PENDING]
  rfl

lemma parse_found_500 (db : DB) (pid : Nat) (fetch : Except String PdfExtract)
    (embedder : String → List Int) (failAt : Option Nat) (ix : List IndexEntry)
    (p : PDFRec) (h : findById db pid = some p) :
    parse_pdf_db db pid fetch embedder failAt ix =
      (.error (.internalError "Error parsing PDF: INDEXED"), db, ix) := by
  unfold parse_pdf_db
  rw [h, lookup_INDEXED]
  rfl

lemma parse_pdf_db_errors (db : DB) (pid : Nat) (fetch : Except String PdfExtract)
    (embedder : String → List Int) (failAt : Option Nat) (ix : List IndexEntry) :
    ∃ e, (parse_pdf_db db pid fetch embedder failAt ix).1 = .error e := by
  cases h : findById db pid with
  | none => exact ⟨.notFound "PDF not found", by unfold parse_pdf_db; rw [h]⟩
  | some p =>
    exact ⟨.internalError "Error parsing PDF: INDEXED",
      by rw [parse_found_500 db pid fetch embedder failAt ix p h]⟩

lemma parse_pdf_db_db_unchanged (db : DB) (pid : Nat)
    (fetch : Except String PdfExtract) (embedder : String → List Int)
    (failAt : Option Nat) (ix : List IndexEntry) :
    (parse_pdf_db db pid fetch embedder failAt ix).2.1 = db := by
  cases h : findById db pid with
  | none => unfold parse_pdf_db; rw [h]
  | some p => rw [parse_found_500 db pid fetch embedder failAt ix p h]

lemma findById_updateById (db : DB) (pid : Nat) (f : PDFRec → PDFRec)
    (hf : ∀ r, (f r).id = r.id) (i : Nat) :
    findById (updateById db pid f) i =
      (findById db i).map (fun r => if r.id == pid then f r else r) := by
  unfold findById updateById
  rw [List.find?_map]
  have hp : ((fun r : PDFRec => r.id == i) ∘ (fun r => if r.id == pid then f r else r))
      = fun r : PDFRec => r.id == i := by
    funext x
    by_cases h : x.id == pid <;> simp [Function.comp, h, hf x]
  rw [hp]

lemma statusOf_updateById (db : DB) (pid : Nat) (f : PDFRec → PDFRec)
    (hf : ∀ r, (f r).id = r.id) (i : Nat) :
    statusOf (updateById db pid f) i =
      (findById db i).map (fun r => if r.id == pid then (f r).status else r.status) := by
  unfold statusOf
  rw [findById_updateById db pid f hf i]
  cases findById db i with
  | none => rfl
  | some r =>
    by_cases hc : r.id = pid <;> simp [hc]

lemma statusOf_append_of_found (db : DB) (rs : List PDFRec) (i : Nat)
    (s : PDFStatus) (h : statusOf db i = some s) :
    statusOf (db ++ rs) i = some s := by
  unfold statusOf findById at *
  rw [List.find?_append]
  cases hf : List.find? (fun r => r.id == i) db with
  | none => rw [hf] at h; simp at h
  | some r => rw [hf] at h; simp [hf, Option.or, h]

lemma upload_pdf_db_db_unchanged (db : DB) (fname uuid : String) (newId : Nat) :
    (upload_pdf_db db fname uuid newId).2 = db := by
  cases h : findByFilename db fname with
  | none => rw [upload_pdf_db_fresh db fname uuid newId h]
  | some p => rw [upload_pdf_db_existing db fname uuid newId p h]

lemma confirm_db_unchanged (db : DB) (pid : Nat) (s3size : Option Nat) :
    (confirm_pdf_upload db pid s3size).2 = db := by
  cases h : findById db pid with
  | none => unfold confirm_pdf_upload; rw [h]
  | some p => rw [confirm_found_500 db pid s3size p h]

lemma statusRank_le_two (s : PDFStatus) : statusRank s ≤ 2 := by
  cases s <;> decide

lemma analyze_pdf_status_monotone (db : DB) (pid : Nat)
    (fetch : Except String PdfExtract) (embedder : String → List Int)
    (failAt : Option Nat) (ix : List IndexEntry) (i : Nat) (s s2 : PDFStatus)
    (h : statusOf db i = some s)
    (h2 : statusOf (analyze_pdf db pid fetch embedder failAt ix).2.1 i = some s2) :
    statusRank s ≤ statusRank s2 := by
  unfold analyze_pdf at h2
  cases hp : findById db pid with
  | none =>
    rw [hp] at h2
    simp only at h2
    rw [h] at h2
    cases h2
    exact le_refl _
  | some pdf =>
    rw [hp] at h2
    simp only at h2
    by_cases hparsed : pdf.status = PDFStatus.PARSED
    · rw [if_pos hparsed] at h2
      simp only at h2
      rw [h] at h2
      cases h2
      exact le_refl _
    · rw [if_neg hparsed] at h2
      by_cases hpre : pdf.status = PDFStatus.PRE_SIGNED
      · rw [if_pos hpre] at h2
        simp only at h2
        rw [h] at h2
        cases h2
        exact le_refl _
      · rw [if_neg hpre] at h2
        cases ha : analyze_and_index_pdf pid pdf.filename fetch embedder failAt ix with
        | mk res ix2 =>
          rw [ha] at h2
          cases res with
          | error e =>
            simp only at h2
            rw [h] at h2
            cases h2
            exact le_refl _
          | ok vid =>
            simp only at h2
            have hrw := statusOf_updateById db pid
              (fun r =>
                { r with
                  status := PDFStatus.PARSED
                  vector_index_id := some vid
                  content_summary := some summaryString })
              (fun r => rfl) i
            rw [hrw] at h2
            unfold statusOf at h
            cases hfi : findById db i with
            | none => rw [hfi] at h; cases h
            | some rec =>
              rw [hfi] at h
              rw [hfi] at h2
              simp only [Option.map_some'] at h h2
              by_cases hid : rec.id == pid
              · rw [if_pos hid] at h2
                cases h2
                calc statusRank s ≤ 2 := statusRank_le_two s
                  _ = statusRank PDFStatus.PARSED := rfl
              · rw [if_neg hid] at h2
                rw [h] at h2
                cases h2
                exact le_refl _

/-! ### Claim theorems -/

/-- C1: the claim says a request-upload call with a fresh filename creates a
Document record in status `PENDING`, and that statuses range over
`PENDING`, `UPLOADED`, `INDEXED`.  On the code this fails: `PDFStatus`
has no member `PENDING` (its members are `PRE_SIGNED`, `UPLOADED`,
`PARSED`), so `upload_pdf` in the mounted router `pdf_db.py` hits
`AttributeError` while building the record, rolls the session back, and
returns HTTP 500 — with the database unchanged and no record created. -/
theorem upload_request_fresh_crashes (db : DB) (fname uuid : String) (newId : Nat)
    (h : findByFilename db fname = none) :
    upload_pdf_db db fname uuid newId =
      (.error (.internalError "Error creating upload URL: PENDING"), db) :=
  upload_pdf_db_fresh db fname uuid newId h

/-- Witness for C1 at a concrete input: the empty database and filename
a.pdf. -/
theorem upload_request_fresh_crashes_witness :
    findByFilename [] "a.pdf" = none ∧
      upload_pdf_db [] "a.pdf" "uuid0" 1 =
        (.error (.internalError "Error creating upload URL: PENDING"), []) :=
  ⟨rfl, upload_request_fresh_crashes [] "a.pdf" "uuid0" 1 rfl⟩

/-- C2: the claim says a request-upload call whose filename matches an
existing document either returns the existing identity (status
`PENDING`) or fails with a conflict error naming the existing status.
On the code, the very comparison `existing_pdf.status == PDFStatus.PENDING`
(pdf_db.py line 33) raises `AttributeError`, so every such call returns
HTTP 500 regardless of the record's status, and neither the idempotent
return nor the conflict error is reachable. -/
theorem upload_request_existing_crashes (db : DB) (fname uuid : String)
    (newId : Nat) (p : PDFRec) (h : findByFilename db fname = some p) :
    upload_pdf_db db fname uuid newId =
      (.error (.internalError "Error creating upload URL: PENDING"), db) :=
  upload_pdf_db_existing db fname uuid newId p h

/-- Witness for C2 at a concrete input: a database holding one UPLOADED
record named a.pdf. -/
theorem upload_request_existing_crashes_witness :
    findByFilename [sampleUploaded] "a.pdf" = some sampleUploaded ∧
      upload_pdf_db [sampleUploaded] "a.pdf" "uuid0" 2 =
        (.error (.internalError "Error creating upload URL: PENDING"), [sampleUploaded]) :=
  ⟨by decide, upload_request_existing_crashes [sampleUploaded] "a.pdf" "uuid0" 2
    sampleUploaded (by decide)⟩

/-- C3: the claim says confirm-upload fails with `InvalidStateError`
unless the status is exactly `PENDING`, and parse fails with
`AlreadyIndexedError` / `NotUploadedError` on `INDEXED` / `PENDING`
statuses, the stored state being unchanged in every such failure.  On
the code, for every existing document both handlers instead raise
`AttributeError` (`PDFStatus.PENDING` at pdf_db.py line 86,
`PDFStatus.INDEXED` at line 129) and return HTTP 500 — the guarded 400
branches that would produce the claimed errors are unreachable.  Only the
state-unchanged part holds, which this theorem also records. -/
theorem confirm_and_parse_wrong_error (db : DB) (pid : Nat) (s3size : Option Nat)
    (fetch : Except String PdfExtract) (embedder : String → List Int)
    (failAt : Option Nat) (ix : List IndexEntry) (p : PDFRec)
    (h : findById db pid = some p) :
    confirm_pdf_upload db pid s3size =
      (.error (.internalError "Error confirming PDF upload: PENDING"), db) ∧
    parse_pdf_db db pid fetch embedder failAt ix =
      (.error (.internalError "Error parsing PDF: INDEXED"), db, ix) :=
  ⟨confirm_found_500 db pid s3size p h,
   parse_found_500 db pid fetch embedder failAt ix p h⟩

/-- Witness for C3 at a concrete input: one UPLOADED record with id 1. -/
theorem confirm_and_parse_wrong_error_witness :
    confirm_pdf_upload [sampleUploaded] 1 (some 7) =
      (.error (.internalError "Error confirming PDF upload: PENDING"), [sampleUploaded]) ∧
    parse_pdf_db [sampleUploaded] 1 (.ok (.docs ["Hi"])) (fun _ => []) none [] =
      (.error (.internalError "Error parsing PDF: INDEXED"), [sampleUploaded], []) :=
  confirm_and_parse_wrong_error [sampleUploaded] 1 (some 7) (.ok (.docs ["Hi"]))
    (fun _ => []) none [] sampleUploaded (by decide)

/-- C4: the claim describes what a successful parse call produces (one
index entry per segment keyed by the enumerated segment id, status
`INDEXED`, index reference `pdf_<id>`, the fixed summary).  On the code,
no parse call can ever succeed: for an unknown id it is a 404 and for
every existing document the `PDFStatus.INDEXED` lookup at pdf_db.py line
129 raises before the pipeline is reached, so the endpoint always
returns an error. -/
theorem parse_never_succeeds (db : DB) (pid : Nat)
    (fetch : Except String PdfExtract) (embedder : String → List Int)
    (failAt : Option Nat) (ix : List IndexEntry) :
    ∃ e, (parse_pdf_db db pid fetch embedder failAt ix).1 = .error e :=
  parse_pdf_db_errors db pid fetch embedder failAt ix

/-- C5: every parse call leaves the metadata record exactly as it was —
the claim's failure arm.  (Its success arm, a full completion leaving
status `INDEXED`, never occurs: see C4.  All failures roll back the
status write, so the record is never partially updated.) -/
theorem parse_leaves_record_unchanged (db : DB) (pid : Nat)
    (fetch : Except String PdfExtract) (embedder : String → List Int)
    (failAt : Option Nat) (ix : List IndexEntry) :
    (parse_pdf_db db pid fetch embedder failAt ix).2.1 = db :=
  parse_pdf_db_db_unchanged db pid fetch embedder failAt ix

/-- C6 counterexample: a valid PDF with zero extractable text (one
document whose extracted content is empty) makes `parse_pdf_content`
return the empty list — not the `ParseError` the claim requires. -/
theorem segmenter_empty_text_no_error :
    parse_pdf_content (PdfExtract.docs [""]) = Except.ok [] :=
  rfl

/-- C6 as amended: every segment the Segmenter returns is non-empty and
equal to its own whitespace-trimmed form; an unparseable byte stream
fails with the wrapped parse error; but a valid PDF with zero extractable
text yields the empty sequence instead of failing. -/
theorem segmenter_amended_spec :
    (∀ x out, parse_pdf_content x = .ok out →
      ∀ s ∈ out, s ≠ "" ∧ pyStrip s = s) ∧
    (∀ msg, parse_pdf_content (.invalid msg) =
      .error ("Error parsing PDF content: " ++ msg)) ∧
    parse_pdf_content (PdfExtract.docs [""]) = Except.ok [] := by
  refine ⟨?_, fun msg => rfl, rfl⟩
  intro x out hx s hs
  cases x with
  | invalid msg => cases hx
  | docs cs =>
    unfold parse_pdf_content at hx
    cases hx
    rw [List.mem_flatMap] at hs
    obtain ⟨c, _, hc⟩ := hs
    exact mem_segmentsOfContent c s hc

/-- Witness for C6 applying the theorem at a concrete segmentation. -/
theorem segmenter_amended_spec_witness :
    ("Hello" ≠ "" ∧ pyStrip "Hello" = "Hello") ∧
      parse_pdf_content (.invalid "bad pdf") =
        .error ("Error parsing PDF content: " ++ "bad pdf") :=
  ⟨segmenter_amended_spec.1 (.docs ["Hello. World"]) ["Hello", "World"] rfl
      "Hello" (by decide),
   segmenter_amended_spec.2.1 "bad pdf"⟩

/-- C7: the chat-path vector search returns a list for every outcome of
the underlying query (the embedding of `search_similar_content` catches
every exception), the result is empty both when the query fails and when
the index has no data, and in either case `chat` with `use_knowledge`
still proceeds to generation with the no-context prompt and an empty
sources list. -/
theorem search_failure_degrades (msg q : String) (go : GenOutcome) :
    search_similar_content (.fail msg) = [] ∧
    search_similar_content (.ok []) = [] ∧
    chat q true (.fail msg) go = (generate_response (format_prompt q none) go, []) ∧
    chat q true (.ok []) go = (generate_response (format_prompt q none) go, []) :=
  ⟨rfl, rfl, rfl, rfl⟩

/-- C8: a non-200 response, a timeout, a connection failure, and any
other exception from the generation endpoint each make `chat` return the
corresponding apologetic string as the response value — never an
exception, so the chat turn always completes with a string. -/
theorem generation_failure_returns_apology (q : String) (uk : Bool)
    (so : SearchOutcome) (code : Nat) (body : Option String) (msg : String) :
    (code ≠ 200 → (chat q uk so (.completed code body)).1 = apologyHttp) ∧
    (chat q uk so .timeout).1 = apologyTimeout ∧
    (chat q uk so .connError).1 = apologyConn ∧
    (chat q uk so (.exc msg)).1 = apologyGeneric := by
  refine ⟨fun h => ?_, rfl, rfl, rfl⟩
  simp [chat, generate_response, h]

/-- Witness for C8 at a concrete failing status code (503). -/
theorem generation_failure_returns_apology_witness :
    (chat "hi" false (.ok []) (.completed 503 none)).1 = apologyHttp :=
  (generation_failure_returns_apology "hi" false (.ok []) 503 none "m").1
    (by decide)

/-- C9 counterexample: the claim says no operation ever moves a document
status to an earlier lifecycle stage, but `mark_uploaded` in
`routers/pdf.py` sets status `UPLOADED` with no guard: on an already
indexed (`PARSED`) document the status moves backward. -/
theorem mark_uploaded_regresses_status :
    statusOf [sampleParsed] 1 = some PDFStatus.PARSED ∧
    statusOf (mark_uploaded [sampleParsed] 1 none).2 1 = some PDFStatus.UPLOADED ∧
    statusRank PDFStatus.UPLOADED < statusRank PDFStatus.PARSED := by
  decide

/-- C9 as amended: every handler that leaves a document's row in place
preserves or advances its status along
`PRE_SIGNED → UPLOADED → PARSED` — except `mark_uploaded`, which can move
it backward (see the counterexample).  The conjuncts cover the two
upload handlers, confirm, parse, and analyze. -/
theorem status_forward_except_mark_uploaded (db : DB) (fname uuid : String)
    (newId pid : Nat) (s3size : Option Nat) (fetch : Except String PdfExtract)
    (embedder : String → List Int) (failAt : Option Nat) (ix : List IndexEntry)
    (i : Nat) (s s2 : PDFStatus) (h : statusOf db i = some s) :
    (statusOf (upload_pdf_v1 db fname uuid newId).2 i = some s2 →
      statusRank s ≤ statusRank s2) ∧
    (statusOf (upload_pdf_db db fname uuid newId).2 i = some s2 →
      statusRank s ≤ statusRank s2) ∧
    (statusOf (confirm_pdf_upload db pid s3size).2 i = some s2 →
      statusRank s ≤ statusRank s2) ∧
    (statusOf (parse_pdf_db db pid fetch embedder failAt ix).2.1 i = some s2 →
      statusRank s ≤ statusRank s2) ∧
    (statusOf (analyze_pdf db pid fetch embedder failAt ix).2.1 i = some s2 →
      statusRank s ≤ statusRank s2) := by
  refine ⟨fun h2 => ?_, fun h2 => ?_, fun h2 => ?_, fun h2 => ?_, fun h2 => ?_⟩
  · have : statusOf (upload_pdf_v1 db fname uuid newId).2 i = some s :=
      statusOf_append_of_found db _ i s h
    rw [this] at h2
    cases h2
    exact le_refl _
  · rw [upload_pdf_db_db_unchanged db fname uuid newId, h] at h2
    cases h2
    exact le_refl _
  · rw [confirm_db_unchanged db pid s3size, h] at h2
    cases h2
    exact le_refl _
  · rw [parse_pdf_db_db_unchanged db pid fetch embedder failAt ix, h] at h2
    cases h2
    exact le_refl _
  · exact analyze_pdf_status_monotone db pid fetch embedder failAt ix i s s2 h h2

/-- Witness for C9 applying the amended theorem to a successful analyze
call on an UPLOADED document. -/
theorem status_forward_except_mark_uploaded_witness :
    statusRank PDFStatus.UPLOADED ≤ statusRank PDFStatus.PARSED :=
  (status_forward_except_mark_uploaded [sampleUploaded] "b.pdf" "uuid1" 2 1 none
      (.ok (.docs ["Hi. There"])) (fun _ => []) none [] 1
      PDFStatus.UPLOADED PDFStatus.PARSED (by decide)).2.2.2.2 (by decide)

/-- C10: with `use_knowledge = false` the chat result does not depend on
the vector index or the embedding engine (the search oracle is never
consulted: two runs over arbitrarily different indexes agree), the
sources list is empty, and the endpoint surfaces the sources field as
absent. -/
theorem chat_without_knowledge_ignores_index (q : String)
    (so1 so2 : SearchOutcome) (go : GenOutcome) :
    chat q false so1 go = chat q false so2 go ∧
    (chat q false so1 go).2 = [] ∧
    (chat_with_pdfs q false so1 go).sources = none :=
  ⟨rfl, rfl, rfl⟩

end PdfApp
